import Mathlib

/-!
Shallow embedding of `segmentio/terraform-enterprise-go` (package `tfe`).

The repository ships one final revision of `client.go` / `types.go` together
with earlier near-duplicate revisions of the same files.  The final revision
of `client.go` (the one whose line numbers the claims cite: `withRetries`,
`do`, the list/get/create operations) is embedded below as the authority;
the earlier revision kept in `src/unnamed/part_002` contributes
`retryHTTPClient.Do` and `defaultShouldRetry`, which are embedded separately
under the `Part002` namespace.

Go conventions used by the embedding:
* a Go `error` value is `Option GoError` (`none` = `nil`);
* Go `int` is `Int`; `time.Duration` is `Nat` (nanoseconds, the sleep
  durations that occur never overflow `int64`);
* an I/O action that is invoked repeatedly is an oracle indexed by the
  invocation number (`Nat → …`), so that successive attempts may differ;
* a Go loop bounded only by data coming from the network is given explicit
  fuel, and running out of fuel is an observable outcome.
-/

namespace TFE

/-- The sentinel errors of `client.go` plus the shapes of other `error`
values the client can meet: JSON decode errors, `net.Error` timeouts and
other transport errors. `e == ErrBadStatus` style identity comparisons in
the source become constructor matches here. -/
inductive GoError where
  | unauthorized
  | notFound
  | workspaceNotFound
  | stateVersionNotFound
  | badStatus
  | decodeError (msg : String)
  | netTimeout
  | netOther (msg : String)
  deriving DecidableEq, Repr

/-- Go `interval := 500 * time.Millisecond` from `withRetries`, in nanoseconds. -/
def goInterval : Nat := 500 * 1000000

/-- Observable events of one `withRetries` run: the `i`-th invocation of the
action with its result, and each `time.Sleep` with its duration. -/
inductive RetryEvent (ε : Type) where
  | attempt (i : Nat) (result : ε)
  | sleep (duration : Nat)
  deriving DecidableEq, Repr

/-- Result and event trace of a `withRetries`-shaped loop. -/
structure RetryRun (ε : Type) where
  result : ε
  events : List (RetryEvent ε)
  deriving DecidableEq, Repr

/-- The loop of `withRetries` (and of `retryHTTPClient.Do`): run `f`, stop
when `shouldRetry` says so, otherwise sleep `interval * 2^i` and go round
again; when the fuel (the remaining loop iterations) is exhausted, the value
carried from the last attempt (`last`, initially the zero value) is
returned.  The sleep after the final retryable attempt is performed by the
source, so it appears in the trace. -/
def retryRun {ε : Type} (f : Nat → ε) (p : ε → Bool) (interval : Nat)
    (last : ε) : Nat → Nat → RetryRun ε
  | 0, _ => ⟨last, []⟩
  | fuel + 1, i =>
    let e := f i
    if p e then
      let rest := retryRun f p interval e fuel (i + 1)
      ⟨rest.result, .attempt i e :: .sleep (interval * 2 ^ i) :: rest.events⟩
    else ⟨e, [.attempt i e]⟩

/-- Go `withRetries(f, shouldRetry, attempts)` with its trace.  `attempts` is a
Go `int`; the loop `for i := 0; i < attempts; i++` makes `attempts.toNat`
iterations, and `var err error` makes the carried value start at `nil`. -/
def withRetriesRun (f : Nat → Option GoError) (shouldRetry : Option GoError → Bool)
    (attempts : Int) : RetryRun (Option GoError) :=
  retryRun f shouldRetry goInterval none attempts.toNat 0

/-- Go `withRetries` as the source exposes it: just the returned error. -/
def withRetries (f : Nat → Option GoError) (shouldRetry : Option GoError → Bool)
    (attempts : Int) : Option GoError :=
  (withRetriesRun f shouldRetry attempts).result

/-- Number of `attempt` events in a trace. -/
def countAttempts {ε : Type} : List (RetryEvent ε) → Nat
  | [] => 0
  | .attempt _ _ :: rest => countAttempts rest + 1
  | .sleep _ :: rest => countAttempts rest

/-- How many times the action was invoked in a run. -/
def numAttempts {ε : Type} (r : RetryRun ε) : Nat :=
  countAttempts r.events

/-- The durations slept, in order. -/
def sleepDurations {ε : Type} : List (RetryEvent ε) → List Nat
  | [] => []
  | .sleep d :: rest => d :: sleepDurations rest
  | .attempt _ _ :: rest => sleepDurations rest

/-- The duration of the sleep performed immediately before attempt `i`,
when there is one. -/
def sleepBefore {ε : Type} : List (RetryEvent ε) → Nat → Option Nat
  | .sleep d :: .attempt j r :: rest, i =>
    if j = i then some d else sleepBefore (.attempt j r :: rest) i
  | _ :: rest, i => sleepBefore rest i
  | [], _ => none

/-- The retry predicate installed by `do` (and, identically, by
`downloadStateVersion`): retry exactly when the attempt produced
`ErrBadStatus` or a `net.Error` whose `Timeout()` is true. -/
def shouldRetryDo : Option GoError → Bool
  | some .badStatus => true
  | some .netTimeout => true
  | _ => false

/-!  The data model of `types.go`.  `time.Time` is rendered as `Int`
(nanoseconds since the epoch) and `map[string]bool` as an association list;
the Go zero value of every struct is its `Inhabited` default. -/

/-- Go `type Link string`, `type Links map[string]Link`. -/
abbrev Links : Type := List (String × String)

/-- Go `type RelationshipData struct { ID, Type string }`. -/
structure RelationshipData where
  ID : String
  type : String
  deriving DecidableEq, Inhabited, Repr

/-- Go `type Relationship struct { Data RelationshipData; Links Links }`. -/
structure Relationship where
  data : RelationshipData
  links : Links
  deriving DecidableEq, Inhabited

/-- Go `type Relationships map[string]Relationship`. -/
abbrev Relationships : Type := List (String × Relationship)

/-- Go `type Organization struct { ID string; Links Links; Relationships Relationships }`. -/
structure Organization where
  ID : String
  links : Links
  relationships : Relationships
  deriving DecidableEq, Inhabited

/-- Go `type VCSRepo struct`. -/
structure VCSRepo where
  branch : String
  ingressSubmodules : Bool
  identifier : String
  oauthTokenID : String
  deriving DecidableEq, Inhabited

/-- Go `type WorkspaceAttributes struct`. -/
structure WorkspaceAttributes where
  name : String
  environment : String
  autoApply : Bool
  locked : Bool
  createdAt : Int
  workingDirectory : String
  terraformVersion : String
  vcsRepo : VCSRepo
  permissions : List (String × Bool)
  actions : List (String × Bool)
  deriving DecidableEq, Inhabited

/-- Go `type Workspace struct`. -/
structure Workspace where
  ID : String
  type : String
  attributes : WorkspaceAttributes
  relationships : Relationships
  links : Links
  deriving DecidableEq, Inhabited

/-- Go `type VariableAttributes struct`. -/
structure VariableAttributes where
  key : String
  value : String
  category : String
  hcl : Bool
  sensitive : Bool
  deriving DecidableEq, Inhabited

/-- Go `type Variable struct`. -/
structure Variable where
  ID : String
  type : String
  attributes : VariableAttributes
  relationships : Relationships
  links : Links
  deriving DecidableEq, Inhabited

/-- Go `type RunAttributes struct`. -/
structure RunAttributes where
  autoApply : Bool
  errorText : String
  isDestroy : Bool
  message : String
  source : String
  status : String
  statusTimestamps : List (String × Int)
  terraformVersion : String
  createdAt : Int
  hasChanges : Bool
  actions : List (String × Bool)
  permissions : List (String × Bool)
  deriving DecidableEq, Inhabited

/-- Go `type Run struct { Attributes RunAttributes }`. -/
structure Run where
  attributes : RunAttributes
  deriving DecidableEq, Inhabited

/-- Go `type RunInput struct { Attributes RunAttributes; Relationships Relationships }`. -/
structure RunInput where
  attributes : RunAttributes
  relationships : Relationships
  deriving DecidableEq, Inhabited

/-- Go `type StateVersionAttributes struct`. -/
structure StateVersionAttributes where
  createdAt : Int
  hostedStateDownloadURL : String
  serial : Int
  deriving DecidableEq, Inhabited

/-- Go `type StateVersion struct`. -/
structure StateVersion where
  ID : String
  attributes : StateVersionAttributes
  links : Links
  relationships : Relationships
  deriving DecidableEq, Inhabited

/-- Go `type CreateWorkspaceOptions struct`. -/
structure CreateWorkspaceOptions where
  name : String
  terraformVersion : String
  vcsIdentifier : String
  vcsOauthKeyID : String
  deriving DecidableEq, Inhabited

/-- Go `type CreateVariableOptions struct`. -/
structure CreateVariableOptions where
  key : String
  value : String
  category : String
  sensitive : Bool
  hcl : Bool
  deriving DecidableEq, Inhabited

/-- Go `type SSHKeyAttributes struct { ID string }`. -/
structure SSHKeyAttributes where
  ID : String
  deriving DecidableEq, Inhabited

/-- Go `type AssignSSHKeyPayload struct { Type string; Data SSHKeyAttributes }`. -/
structure AssignSSHKeyPayload where
  type : String
  data : SSHKeyAttributes
  deriving DecidableEq, Inhabited

/-- Go `type PaginationInfo struct { CurrentPage, NextPage, TotalPages int }`. -/
structure PaginationInfo where
  currentPage : Int
  nextPage : Int
  totalPages : Int
  deriving DecidableEq, Inhabited

/-!  The request execution layer (`do`, `client.go:457-510`).  A request is
what `do` assembles from its arguments: method, path, the encoded query
(`nil` becomes the empty `url.Values`) and whether a body reader was
passed.  The network is an oracle mapping a request and an attempt number
to what `c.client.Do` produced for that attempt; a response body is given
already shaped, so that the typed `json.Decoder.Decode(&recv)` of the
source becomes a per-endpoint projection from `Payload`. -/

/-- The request `do` builds: method, path, encoded query parameters, and
whether a non-nil body reader was supplied. -/
structure Request where
  method : String
  path : String
  query : List (String × String)
  hasBody : Bool
  deriving DecidableEq, Inhabited

/-- The JSON document shapes the endpoints of `client.go` decode into,
plus `malformed` for a body on which `Decode` fails. -/
inductive Payload where
  | orgsPage (data : List Organization) (pagination : PaginationInfo)
  | workspacesPage (data : List Workspace) (pagination : PaginationInfo)
  | stateVersionsPage (data : List StateVersion) (pagination : PaginationInfo)
  | workspaceOne (data : Workspace)
  | stateVersionOne (data : StateVersion)
  | runOne (data : Run)
  | variableOne (data : Variable)
  | malformed (msg : String)
  deriving DecidableEq, Inhabited

/-- What one invocation of `c.client.Do` produced: a transport error
(`resp == nil`), or a response with a status code and a body. -/
inductive ServerReply where
  | netErr (e : GoError)
  | resp (status : Nat) (body : Payload)
  deriving DecidableEq, Inhabited

/-- The network oracle: the reply the `i`-th attempt at a request gets. -/
def Server : Type := Request → Nat → ServerReply

/-- The status `switch` of `do`: `401 → ErrUnauthorized`,
`404 → ErrNotFound`, `> 299 → ErrBadStatus`, otherwise fall through to the
decoder. -/
def classifyStatus (status : Nat) : Option GoError :=
  if status = 401 then some .unauthorized
  else if status = 404 then some .notFound
  else if status > 299 then some .badStatus
  else none

/-- One attempt of the closure `do` hands to `withRetries`, decoding with
the endpoint's typed projection: the resulting Go error paired with the
decoded value when the attempt reached a successful decode. -/
def doAttempt {α : Type} (decode : Payload → Except String α) (server : Server)
    (req : Request) (i : Nat) : Option GoError × Option α :=
  match server req i with
  | .netErr e => (some e, none)
  | .resp status body =>
    match classifyStatus status with
    | some e => (some e, none)
    | none =>
      match decode body with
      | .ok v => (none, some v)
      | .error m => (some (.decodeError m), none)

/-- Go `do` delegates the closure to `withRetries` with the predicate
`shouldRetryDo` and `attempts = 10`; the run records the attempts made.
The carried zero value `(none, none)` mirrors `var err error` and the
untouched `recv`. -/
def clientDoRun {α : Type} (decode : Payload → Except String α) (server : Server)
    (req : Request) : RetryRun (Option GoError × Option α) :=
  retryRun (doAttempt decode server req) (fun r => shouldRetryDo r.1)
    goInterval (none, none) (Int.toNat 10) 0

/-- The value `do` leaves behind: the returned error, and the decoded
`recv` when the error is `nil`. -/
def clientDo {α : Type} (decode : Payload → Except String α) (server : Server)
    (req : Request) : Option GoError × Option α :=
  (clientDoRun decode server req).result

/-!  The typed decoders: the oracle presents a response body already
shaped, so decoding succeeds exactly when the body has the wrapper shape
the endpoint declares, and a `malformed` body is a `Decode` failure. -/

/-- Decoder for `wrapper { PaginatedResponse; Data []Organization }`. -/
def decodeOrgsPage : Payload → Except String (List Organization × PaginationInfo)
  | .orgsPage d pagination => .ok (d, pagination)
  | .malformed m => .error m
  | _ => .error "unexpected document shape"

/-- Decoder for `wrapper { PaginatedResponse; Data []Workspace }`. -/
def decodeWorkspacesPage : Payload → Except String (List Workspace × PaginationInfo)
  | .workspacesPage d pagination => .ok (d, pagination)
  | .malformed m => .error m
  | _ => .error "unexpected document shape"

/-- Decoder for `wrapper { PaginatedResponse; Data []StateVersion }`. -/
def decodeStateVersionsPage : Payload → Except String (List StateVersion × PaginationInfo)
  | .stateVersionsPage d pagination => .ok (d, pagination)
  | .malformed m => .error m
  | _ => .error "unexpected document shape"

/-- Decoder for `wrapper { Data Workspace }`. -/
def decodeWorkspaceOne : Payload → Except String Workspace
  | .workspaceOne d => .ok d
  | .malformed m => .error m
  | _ => .error "unexpected document shape"

/-- Decoder for `wrapper { Data StateVersion }`. -/
def decodeStateVersionOne : Payload → Except String StateVersion
  | .stateVersionOne d => .ok d
  | .malformed m => .error m
  | _ => .error "unexpected document shape"

/-- Decoder for `wrapperResp { Data Run }`. -/
def decodeRunOne : Payload → Except String Run
  | .runOne d => .ok d
  | .malformed m => .error m
  | _ => .error "unexpected document shape"

/-- Decoder for `wrapper { Data Variable }`. -/
def decodeVariableOne : Payload → Except String Variable
  | .variableOne d => .ok d
  | .malformed m => .error m
  | _ => .error "unexpected document shape"

/-!  The exported operations of `client.go`.  Each returns its Go result
together with the list of requests handed to `do`, in order.  Request
bodies are abstracted to the `hasBody` flag (their bytes are produced by
`json.Marshal`, which cannot fail on these payloads and which no claim
inspects).  The pagination loops take explicit fuel; `fuelOut` records a
loop that is still running after that many iterations. -/

/-- Outcome of a paginated list operation. -/
inductive ListOutcome (α : Type) where
  | ok (v : α)
  | err (e : GoError)
  | fuelOut
  deriving DecidableEq, Inhabited

def organizationsPath : String := "/api/v2/organizations"

def workspacesPath (organization : String) : String :=
  "/api/v2/organizations/" ++ organization ++ "/workspaces"

def workspaceGetPath (organization workspace : String) : String :=
  workspacesPath organization ++ "/" ++ workspace

def stateVersionsPath : String := "/api/v2/state-versions"

def stateVersionGetPath (stateVersion : String) : String :=
  stateVersionsPath ++ "/" ++ stateVersion

def currentStateVersionPath (workspaceID : String) : String :=
  "/api/v2/workspaces/" ++ workspaceID ++ "/current-state-version"

def runsPath : String := "/api/v2/runs"

def varsPath : String := "/api/v2/vars"

def sshKeyPath (workspaceID : String) : String :=
  "/api/v2/workspaces/" ++ workspaceID ++ "/relationships/ssh-key"

/-- A body-less request, as every `GET` call site builds it. -/
def getReq (path : String) (query : List (String × String)) : Request :=
  { method := "GET", path := path, query := query, hasBody := false }

/-- Go `q.Add("page[number]", strconv.Itoa(n))`. -/
def pageNumberParam (n : Int) : String × String := ("page[number]", toString n)

/-- The two filters `ListStateVersions` adds to `url.Values`. -/
def svFilters (organization workspace : String) : List (String × String) :=
  [("filter[organization][name]", organization),
   ("filter[workspace][name]", workspace)]

/-- Go `if err == ErrNotFound { return …, ErrWorkspaceNotFound }`. -/
def remapWorkspaceErr (e : GoError) : GoError :=
  if e = .notFound then .workspaceNotFound else e

/-- Go `if err == ErrNotFound { return …, ErrStateVersionNotFound }`. -/
def remapStateVersionErr (e : GoError) : GoError :=
  if e = .notFound then .stateVersionNotFound else e

/-- The `for currentPage < totalPages` loop of `ListOrganizations`
(`client.go:98-105`).  The source builds a `url.Values` holding
`page[number] = currentPage+1` but then calls `c.do` with a `nil` query,
so the issued request carries no query parameters at all. -/
def listOrganizationsLoop (server : Server) (acc : List Organization)
    (pagination : PaginationInfo) (fuel : Nat) :
    ListOutcome (List Organization) × List Request :=
  if pagination.currentPage < pagination.totalPages then
    match fuel with
    | 0 => (.fuelOut, [])
    | fuel + 1 =>
      let req := getReq organizationsPath []
      match clientDo decodeOrgsPage server req with
      | (some e, _) => (.err e, [req])
      | (none, v) =>
        let page := v.getD ([], default)
        let rest := listOrganizationsLoop server (acc ++ page.1) page.2 fuel
        (rest.1, req :: rest.2)
  else (.ok acc, [])

/-- Go `ListOrganizations` (`client.go:83-107`). -/
def listOrganizations (server : Server) (fuel : Nat) :
    ListOutcome (List Organization) × List Request :=
  let req := getReq organizationsPath []
  match clientDo decodeOrgsPage server req with
  | (some e, _) => (.err e, [req])
  | (none, v) =>
    let page := v.getD ([], default)
    let rest := listOrganizationsLoop server page.1 page.2 fuel
    (rest.1, req :: rest.2)

/-- The pagination loop of `ListWorkspaces` (`client.go:130-140`): here the
freshly built query holding only `page[number] = currentPage+1` is passed
to `c.do`. -/
def listWorkspacesLoop (server : Server) (organization : String)
    (acc : List Workspace) (pagination : PaginationInfo) (fuel : Nat) :
    ListOutcome (List Workspace) × List Request :=
  if pagination.currentPage < pagination.totalPages then
    match fuel with
    | 0 => (.fuelOut, [])
    | fuel + 1 =>
      let req := getReq (workspacesPath organization)
        [pageNumberParam (pagination.currentPage + 1)]
      match clientDo decodeWorkspacesPage server req with
      | (some e, _) => (.err (remapWorkspaceErr e), [req])
      | (none, v) =>
        let page := v.getD ([], default)
        let rest := listWorkspacesLoop server organization (acc ++ page.1) page.2 fuel
        (rest.1, req :: rest.2)
  else (.ok acc, [])

/-- Go `ListWorkspaces` (`client.go:112-142`). -/
def listWorkspaces (server : Server) (organization : String) (fuel : Nat) :
    ListOutcome (List Workspace) × List Request :=
  let req := getReq (workspacesPath organization) []
  match clientDo decodeWorkspacesPage server req with
  | (some e, _) => (.err (remapWorkspaceErr e), [req])
  | (none, v) =>
    let page := v.getD ([], default)
    let rest := listWorkspacesLoop server organization page.1 page.2 fuel
    (rest.1, req :: rest.2)

/-- The pagination loop of `ListStateVersions` (`client.go:332-344`): the
query is rebuilt each iteration with both filters and `page[number]`. -/
def listStateVersionsLoop (server : Server) (organization workspace : String)
    (acc : List StateVersion) (pagination : PaginationInfo) (fuel : Nat) :
    ListOutcome (List StateVersion) × List Request :=
  if pagination.currentPage < pagination.totalPages then
    match fuel with
    | 0 => (.fuelOut, [])
    | fuel + 1 =>
      let req := getReq stateVersionsPath
        (svFilters organization workspace ++ [pageNumberParam (pagination.currentPage + 1)])
      match clientDo decodeStateVersionsPage server req with
      | (some e, _) => (.err (remapStateVersionErr e), [req])
      | (none, v) =>
        let page := v.getD ([], default)
        let rest := listStateVersionsLoop server organization workspace
          (acc ++ page.1) page.2 fuel
        (rest.1, req :: rest.2)
  else (.ok acc, [])

/-- Go `ListStateVersions` (`client.go:310-346`). -/
def listStateVersions (server : Server) (organization workspace : String)
    (fuel : Nat) : ListOutcome (List StateVersion) × List Request :=
  let req := getReq stateVersionsPath (svFilters organization workspace)
  match clientDo decodeStateVersionsPage server req with
  | (some e, _) => (.err (remapStateVersionErr e), [req])
  | (none, v) =>
    let page := v.getD ([], default)
    let rest := listStateVersionsLoop server organization workspace page.1 page.2 fuel
    (rest.1, req :: rest.2)

/-- Go `GetWorkspace` (`client.go:147-163`). -/
def getWorkspace (server : Server) (organization workspace : String) :
    Except GoError Workspace × List Request :=
  let req := getReq (workspaceGetPath organization workspace) []
  match clientDo decodeWorkspaceOne server req with
  | (some e, _) => (.error (remapWorkspaceErr e), [req])
  | (none, v) => (.ok (v.getD default), [req])

/-- Go `GetStateVersion` (`client.go:379-395`); its `organization` and
`workspace` parameters are unused by the source as well. -/
def getStateVersion (server : Server) (_organization _workspace stateVersion : String) :
    Except GoError StateVersion × List Request :=
  let req := getReq (stateVersionGetPath stateVersion) []
  match clientDo decodeStateVersionOne server req with
  | (some e, _) => (.error (remapStateVersionErr e), [req])
  | (none, v) => (.ok (v.getD default), [req])

/-- Go `GetLatestStateVersion` (`client.go:353-374`): a `GetWorkspace` call to
obtain the workspace ID, then a `GET` on that workspace's
`current-state-version` endpoint, with `ErrNotFound` of the second call
remapped to `ErrStateVersionNotFound`. -/
def getLatestStateVersion (server : Server) (organization workspace : String) :
    Except GoError StateVersion × List Request :=
  match getWorkspace server organization workspace with
  | (.error e, reqs) => (.error e, reqs)
  | (.ok workspaceData, reqs) =>
    let req := getReq (currentStateVersionPath workspaceData.ID) []
    match clientDo decodeStateVersionOne server req with
    | (some e, _) => (.error (remapStateVersionErr e), reqs ++ [req])
    | (none, v) => (.ok (v.getD default), reqs ++ [req])

/-- The request `CreateRun` hands to `do`: `POST /api/v2/runs` with a
marshalled body; the `workspaceID` only occurs inside the body bytes. -/
def createRunReq (_workspaceID : String) : Request :=
  { method := "POST", path := runsPath, query := [], hasBody := true }

/-- The `do` run performed by `CreateRun` (`client.go:168-200`). -/
def createRunTrace (server : Server) (workspaceID : String) :
    RetryRun (Option GoError × Option Run) :=
  clientDoRun decodeRunOne server (createRunReq workspaceID)

/-- Go `CreateRun`'s returned value. -/
def createRun (server : Server) (workspaceID : String) : Except GoError Run :=
  match (createRunTrace server workspaceID).result with
  | (some e, _) => .error e
  | (none, v) => .ok (v.getD default)

/-- The request `CreateWorkspace` hands to `do`. -/
def createWorkspaceReq (organization : String) (_options : CreateWorkspaceOptions) :
    Request :=
  { method := "POST", path := workspacesPath organization, query := [], hasBody := true }

/-- The `do` run performed by `CreateWorkspace` (`client.go:205-235`). -/
def createWorkspaceTrace (server : Server) (organization : String)
    (options : CreateWorkspaceOptions) : RetryRun (Option GoError × Option Workspace) :=
  clientDoRun decodeWorkspaceOne server (createWorkspaceReq organization options)

/-- Go `CreateWorkspace`'s returned value. -/
def createWorkspace (server : Server) (organization : String)
    (options : CreateWorkspaceOptions) : Except GoError Workspace :=
  match (createWorkspaceTrace server organization options).result with
  | (some e, _) => .error e
  | (none, v) => .ok (v.getD default)

/-- The request `CreateVariable` hands to `do`. -/
def createVariableReq (_workspaceID : String) (_options : CreateVariableOptions) :
    Request :=
  { method := "POST", path := varsPath, query := [], hasBody := true }

/-- The `do` run performed by `CreateVariable` (`client.go:268-305`). -/
def createVariableTrace (server : Server) (workspaceID : String)
    (options : CreateVariableOptions) : RetryRun (Option GoError × Option Variable) :=
  clientDoRun decodeVariableOne server (createVariableReq workspaceID options)

/-- Go `CreateVariable`'s returned value. -/
def createVariable (server : Server) (workspaceID : String)
    (options : CreateVariableOptions) : Except GoError Variable :=
  match (createVariableTrace server workspaceID options).result with
  | (some e, _) => .error e
  | (none, v) => .ok (v.getD default)

/-- The request `AssignWorkspaceSSHKey` hands to `do`: a `PATCH` with a
marshalled body. -/
def assignSSHKeyReq (workspaceID : String) (_sshKeyID : String) : Request :=
  { method := "PATCH", path := sshKeyPath workspaceID, query := [], hasBody := true }

/-- The `do` run performed by `AssignWorkspaceSSHKey` (`client.go:239-264`). -/
def assignWorkspaceSSHKeyTrace (server : Server) (workspaceID sshKeyID : String) :
    RetryRun (Option GoError × Option Workspace) :=
  clientDoRun decodeWorkspaceOne server (assignSSHKeyReq workspaceID sshKeyID)

/-- Go `AssignWorkspaceSSHKey` returns only the error. -/
def assignWorkspaceSSHKey (server : Server) (workspaceID sshKeyID : String) :
    Option GoError :=
  (assignWorkspaceSSHKeyTrace server workspaceID sshKeyID).result.1

end TFE

namespace Part002

/-!  The retrying transport of the earlier revision kept in
`src/unnamed/part_002`: `retryHTTPClient.Do` (lines 65-87) and
`defaultShouldRetry` (lines 89-98).  Go runtime panics — the explicit
`panic(...)` call on a request with a non-nil body, and the nil-pointer
dereference `resp.StatusCode` performed when the wrapped client returned an
error and therefore a nil response — are observable outcomes here, so that
crash-freedom is a provable (or refutable) property of the model. -/

/-- The part of `net/http.Response` this transport inspects. -/
structure GoHTTPResponse where
  status : Nat
  deriving DecidableEq, Inhabited, Repr

/-- A Go computation that either returns or panics. -/
inductive Panicky (α : Type) where
  | ok (a : α)
  | panicked (msg : String)
  deriving DecidableEq, Repr

/-- The `(resp, err)` pair returned by `http.Client.Do`: a nil response
with an error, or a response (possibly alongside an error). -/
abbrev DoResult : Type := Option GoHTTPResponse × Option TFE.GoError

/-- Go `defaultShouldRetry(resp, e)` dereferences `resp.StatusCode` without a
nil check, so it panics whenever the wrapped `Do` produced no response;
otherwise it retries any non-200 status, and 200 responses whose error is a
`net.Error` timeout. -/
def defaultShouldRetry (resp : Option GoHTTPResponse) (e : Option TFE.GoError) :
    Panicky Bool :=
  match resp with
  | none => .panicked "invalid memory address or nil pointer dereference"
  | some r =>
    if r.status ≠ 200 then .ok true
    else
      match e with
      | some .netTimeout => .ok true
      | _ => .ok false

/-- Go `type retryHTTPClient struct`: the wrapped client itself is supplied
to `Do` as an oracle, so the structure keeps the policy fields. -/
structure RetryHTTPClient where
  interval : Nat
  maxAttempts : Int
  shouldRetry : Option (Option GoHTTPResponse → Option TFE.GoError → Panicky Bool)

/-- The `for i := 0; i < c.MaxAttempts; i++` loop of `retryHTTPClient.Do`:
returns the settled `(resp, err)` pair together with the number of attempts
performed, or propagates a panic raised by the predicate.  `wrapped i` is
what `c.Client.Do(req)` returned on the `i`-th attempt; `last` carries the
`var resp, err` pair returned on fuel exhaustion. -/
def retryDoLoop (wrapped : Nat → DoResult)
    (p : Option GoHTTPResponse → Option TFE.GoError → Panicky Bool) :
    Nat → Nat → DoResult → Panicky (DoResult × Nat)
  | 0, i, last => .ok (last, i)
  | fuel + 1, i, _ =>
    let r := wrapped i
    match p r.1 r.2 with
    | .panicked m => .panicked m
    | .ok true => retryDoLoop wrapped p fuel (i + 1) r
    | .ok false => .ok (r, i + 1)

/-- Go `retryHTTPClient.Do` (part_002:65-87): panics outright when the
request carries a non-nil body; otherwise picks `defaultShouldRetry` when no
predicate is configured and runs the retry loop. -/
def retryHTTPClientDo (c : RetryHTTPClient) (wrapped : Nat → DoResult)
    (reqHasBody : Bool) : Panicky (DoResult × Nat) :=
  if reqHasBody then .panicked "Retries for requests with Body unsupported"
  else
    let p := c.shouldRetry.getD defaultShouldRetry
    retryDoLoop wrapped p c.maxAttempts.toNat 0 (none, none)

end Part002

namespace TFE

/-!  General lemmas about the retry loop, shared by several theorems. -/

theorem retryRun_stop {ε : Type} {f : Nat → ε} {p : ε → Bool} {interval : Nat}
    {last : ε} {fuel i : Nat} (h : p (f i) = false) :
    retryRun f p interval last (fuel + 1) i = ⟨f i, [.attempt i (f i)]⟩ := by
  simp [retryRun, h]

theorem retryRun_step {ε : Type} {f : Nat → ε} {p : ε → Bool} {interval : Nat}
    {last : ε} {fuel i : Nat} (h : p (f i) = true) :
    retryRun f p interval last (fuel + 1) i =
      ⟨(retryRun f p interval (f i) fuel (i + 1)).result,
        .attempt i (f i) :: .sleep (interval * 2 ^ i) ::
          (retryRun f p interval (f i) fuel (i + 1)).events⟩ := by
  simp [retryRun, h]

theorem countAttempts_nil {ε : Type} : countAttempts ([] : List (RetryEvent ε)) = 0 :=
  rfl

theorem countAttempts_attempt {ε : Type} {i : Nat} {e : ε}
    {evs : List (RetryEvent ε)} :
    countAttempts (.attempt i e :: evs) = countAttempts evs + 1 :=
  rfl

theorem countAttempts_sleep {ε : Type} {d : Nat} {evs : List (RetryEvent ε)} :
    countAttempts (.sleep d :: evs) = countAttempts evs :=
  rfl

theorem numAttempts_le {ε : Type} (f : Nat → ε) (p : ε → Bool) (interval : Nat) :
    ∀ (fuel i : Nat) (last : ε),
      numAttempts (retryRun f p interval last fuel i) ≤ fuel := by
  intro fuel
  induction fuel with
  | zero => intro i last; simp [retryRun, numAttempts, countAttempts]
  | succ n ih =>
    intro i last
    cases hp : p (f i) with
    | true =>
      rw [retryRun_step hp]
      simpa [numAttempts, countAttempts_attempt, countAttempts_sleep] using
        Nat.succ_le_succ (ih (i + 1) (f i))
    | false =>
      rw [retryRun_stop hp]
      simp [numAttempts, countAttempts]

theorem numAttempts_pos {ε : Type} (f : Nat → ε) (p : ε → Bool) (interval : Nat)
    (fuel i : Nat) (last : ε) :
    0 < numAttempts (retryRun f p interval last (fuel + 1) i) := by
  cases hp : p (f i) with
  | true => rw [retryRun_step hp]; simp [numAttempts, countAttempts]
  | false => rw [retryRun_stop hp]; simp [numAttempts, countAttempts]

theorem retryRun_result_allRetry {ε : Type} {f : Nat → ε} {p : ε → Bool}
    {interval : Nat} (h : ∀ j, p (f j) = true) :
    ∀ (fuel i : Nat) (last : ε),
      (retryRun f p interval last (fuel + 1) i).result = f (i + fuel) := by
  intro fuel
  induction fuel with
  | zero =>
    intro i last
    rw [retryRun_step (h i)]
    simp [retryRun]
  | succ n ih =>
    intro i last
    rw [retryRun_step (h i)]
    show (retryRun f p interval (f i) (n + 1) (i + 1)).result = f (i + (n + 1))
    rw [ih (i + 1) (f i)]
    congr 1
    omega

theorem numAttempts_allRetry {ε : Type} {f : Nat → ε} {p : ε → Bool}
    {interval : Nat} (h : ∀ j, p (f j) = true) :
    ∀ (fuel i : Nat) (last : ε),
      numAttempts (retryRun f p interval last fuel i) = fuel := by
  intro fuel
  induction fuel with
  | zero => intro i last; simp [retryRun, numAttempts, countAttempts]
  | succ n ih =>
    intro i last
    rw [retryRun_step (h i)]
    simp only [numAttempts, countAttempts_attempt, countAttempts_sleep]
    exact congrArg (· + 1) (ih (i + 1) (f i))

theorem retryRun_terminal_at {ε : Type} {f : Nat → ε} {p : ε → Bool}
    {interval : Nat} :
    ∀ (fuel i0 k : Nat) (last : ε),
      k < numAttempts (retryRun f p interval last fuel i0) →
      p (f (i0 + k)) = false →
      numAttempts (retryRun f p interval last fuel i0) = k + 1 ∧
        (retryRun f p interval last fuel i0).result = f (i0 + k) := by
  intro fuel
  induction fuel with
  | zero =>
    intro i0 k last hk _
    simp [retryRun, numAttempts, countAttempts] at hk
  | succ n ih =>
    intro i0 k last hk hterm
    cases hp : p (f i0) with
    | false =>
      rw [retryRun_stop hp] at hk ⊢
      simp only [numAttempts, countAttempts_attempt, countAttempts_nil] at hk ⊢
      have hk0 : k = 0 := by omega
      subst hk0
      exact ⟨rfl, rfl⟩
    | true =>
      rw [retryRun_step hp] at hk ⊢
      simp only [numAttempts, countAttempts_attempt, countAttempts_sleep] at hk ⊢
      cases k with
      | zero =>
        rw [Nat.add_zero] at hterm
        rw [hterm] at hp
        cases hp
      | succ k' =>
        have hk' : k' < numAttempts (retryRun f p interval (f i0) n (i0 + 1)) := by
          simpa [numAttempts] using Nat.lt_of_succ_lt_succ hk
        have hterm' : p (f ((i0 + 1) + k')) = false := by
          have : (i0 + 1) + k' = i0 + (k' + 1) := by omega
          rw [this]; exact hterm
        have := ih (i0 + 1) k' (f i0) hk' hterm'
        refine ⟨?_, ?_⟩
        · have h1 : countAttempts (retryRun f p interval (f i0) n (i0 + 1)).events
              = k' + 1 := this.1
          omega
        · have harg : (i0 + 1) + k' = i0 + (k' + 1) := by omega
          calc (retryRun f p interval (f i0) n (i0 + 1)).result
              = f ((i0 + 1) + k') := this.2
            _ = f (i0 + (k' + 1)) := by rw [harg]

theorem sleepDurations_retryRun {ε : Type} {f : Nat → ε} {p : ε → Bool}
    {interval : Nat} :
    ∀ (fuel i0 j : Nat) (last : ε) (d : Nat),
      (sleepDurations (retryRun f p interval last fuel i0).events).get? j = some d →
      d = interval * 2 ^ (i0 + j) := by
  intro fuel
  induction fuel with
  | zero =>
    intro i0 j last d h
    simp [retryRun, sleepDurations] at h
  | succ n ih =>
    intro i0 j last d h
    cases hp : p (f i0) with
    | false =>
      rw [retryRun_stop hp] at h
      simp [sleepDurations] at h
    | true =>
      rw [retryRun_step hp] at h
      simp only [sleepDurations] at h
      cases j with
      | zero => simp at h; simpa using h.symm
      | succ j' =>
        have : d = interval * 2 ^ ((i0 + 1) + j') := by
          refine ih (i0 + 1) j' (f i0) d ?_
          simpa using h
        have harg : (i0 + 1) + j' = i0 + (j' + 1) := by omega
        rw [harg] at this
        exact this

theorem sleepBefore_attempt_cons {ε : Type} {i : Nat} {e : ε}
    {evs : List (RetryEvent ε)} {j : Nat} :
    sleepBefore (.attempt i e :: evs) j = sleepBefore evs j :=
  rfl

theorem sleepBefore_retryRun {ε : Type} {f : Nat → ε} {p : ε → Bool}
    {interval : Nat} :
    ∀ (fuel i0 j : Nat) (last : ε) (d : Nat),
      sleepBefore (retryRun f p interval last fuel i0).events j = some d →
      ∃ k, j = k + 1 ∧ d = interval * 2 ^ k := by
  intro fuel
  induction fuel with
  | zero =>
    intro i0 j last d h
    simp [retryRun, sleepBefore] at h
  | succ n ih =>
    intro i0 j last d h
    cases hp : p (f i0) with
    | false =>
      rw [retryRun_stop hp] at h
      simp [sleepBefore] at h
    | true =>
      rw [retryRun_step hp] at h
      rw [sleepBefore_attempt_cons] at h
      cases n with
      | zero =>
        simp [retryRun, sleepBefore] at h
      | succ n' =>
        cases hp' : p (f (i0 + 1)) with
        | false =>
          rw [retryRun_stop hp'] at h
          by_cases hij : i0 + 1 = j
          · refine ⟨i0, hij.symm, ?_⟩
            simp only [sleepBefore, if_pos hij] at h
            exact (Option.some.inj h).symm
          · simp only [sleepBefore, if_neg hij] at h
            simp [sleepBefore] at h
        | true =>
          rw [retryRun_step hp'] at h
          by_cases hij : i0 + 1 = j
          · refine ⟨i0, hij.symm, ?_⟩
            simp only [sleepBefore, if_pos hij] at h
            exact (Option.some.inj h).symm
          · simp only [sleepBefore, if_neg hij] at h
            refine ih (i0 + 1) j (f i0) d ?_
            rw [retryRun_step hp', sleepBefore_attempt_cons]
            exact h

/-!  Concrete servers and actions used to evaluate the client. -/

/-- An action whose every invocation fails with `ErrBadStatus`. -/
def alwaysBadStatus : Nat → Option GoError := fun _ => some .badStatus

/-- A server that answers every request and every attempt with HTTP 500. -/
def always500 : Server := fun _ _ => .resp 500 (.malformed "internal error")

/-- A server that answers every request with HTTP 401. -/
def always401 : Server := fun _ _ => .resp 401 (.malformed "unauthorized")

/-- A server that answers every request with HTTP 404. -/
def always404 : Server := fun _ _ => .resp 404 (.malformed "not found")

/-- A server that answers with HTTP 200 and a body `Decode` chokes on. -/
def always200Malformed : Server := fun _ _ => .resp 200 (.malformed "unexpected EOF")

/-!  Claim C7. -/

/-- C7: for every attempts count N ≥ 1 and every retry predicate that
returns true on every result, `withRetries` invokes the action exactly N
times and returns the result of the N-th invocation unchanged — on
exhaustion it surfaces whatever the final attempt produced and never
synthesizes a new error. -/
theorem c7_withRetries_exhaustion (f : Nat → Option GoError)
    (p : Option GoError → Bool) (N : Int) (hN : 1 ≤ N)
    (hp : ∀ e, p e = true) :
    numAttempts (withRetriesRun f p N) = N.toNat ∧
      withRetries f p N = f (N.toNat - 1) := by
  refine ⟨numAttempts_allRetry (fun j => hp (f j)) N.toNat 0 none, ?_⟩
  obtain ⟨m, hm⟩ : ∃ m, N.toNat = m + 1 := ⟨N.toNat - 1, by omega⟩
  unfold withRetries withRetriesRun
  rw [hm, retryRun_result_allRetry (fun j => hp (f j)) m 0 none]
  simp [hm]

/-- Witness for C7 at N = 3 with an always-true predicate. -/
theorem c7_withRetries_exhaustion_witness :
    (1 : Int) ≤ 3 ∧ (∀ e : Option GoError, (fun _ => true) e = true) ∧
      (numAttempts (withRetriesRun (fun i => some (.netOther (toString i)))
          (fun _ => true) 3) = Int.toNat 3 ∧
        withRetries (fun i => some (.netOther (toString i))) (fun _ => true) 3
          = (fun i => some (.netOther (toString i))) (Int.toNat 3 - 1)) :=
  ⟨by decide, fun _ => rfl,
    c7_withRetries_exhaustion (fun i => some (.netOther (toString i)))
      (fun _ => true) 3 (by decide) (fun _ => rfl)⟩

/-!  Claim C10. -/

/-- C10: called with an attempts count of zero or less, `withRetries` never
invokes the action and returns the nil (success) error. -/
theorem c10_withRetries_nonpositive (f : Nat → Option GoError)
    (p : Option GoError → Bool) (attempts : Int) (h : attempts ≤ 0) :
    withRetries f p attempts = none ∧
      numAttempts (withRetriesRun f p attempts) = 0 := by
  have h0 : attempts.toNat = 0 := by omega
  unfold withRetries withRetriesRun
  rw [h0]
  exact ⟨rfl, rfl⟩

/-- Witness for C10 at attempts = -2. -/
theorem c10_withRetries_nonpositive_witness :
    (-2 : Int) ≤ 0 ∧
      (withRetries alwaysBadStatus shouldRetryDo (-2) = none ∧
        numAttempts (withRetriesRun alwaysBadStatus shouldRetryDo (-2)) = 0) :=
  ⟨by decide, c10_withRetries_nonpositive alwaysBadStatus shouldRetryDo (-2) (by decide)⟩

/-!  Claim C5. -/

/-- C5 counterexample: in a run whose attempts all fail with `ErrBadStatus`,
the delay slept before attempt 1 (0-indexed) is `baseInterval * 2^0`, not
the `baseInterval * 2^1` the claim's indexing demands. -/
theorem c5_counterexample :
    sleepBefore (withRetriesRun alwaysBadStatus shouldRetryDo 2).events 1
        = some (goInterval * 2 ^ 0) ∧
      goInterval * 2 ^ 0 ≠ goInterval * 2 ^ 1 := by
  exact ⟨rfl, by decide⟩

/-- C5 amended: the j-th backoff delay (0-indexed) equals
`baseInterval * 2^j`; it is slept after attempt j, hence it is the delay
found immediately before attempt j+1; and the delays are strictly
increasing. -/
theorem c5_amended_backoff_schedule (f : Nat → Option GoError)
    (p : Option GoError → Bool) (attempts : Int) (j k d e : Nat) :
    ((sleepDurations (withRetriesRun f p attempts).events).get? j = some d →
        d = goInterval * 2 ^ j) ∧
      (sleepBefore (withRetriesRun f p attempts).events (j + 1) = some d →
        d = goInterval * 2 ^ j) ∧
      ((sleepDurations (withRetriesRun f p attempts).events).get? j = some d →
        (sleepDurations (withRetriesRun f p attempts).events).get? k = some e →
        j < k → d < e) := by
  refine ⟨?_, ?_, ?_⟩
  · intro h
    simpa using sleepDurations_retryRun attempts.toNat 0 j none d h
  · intro h
    obtain ⟨m, hm, hd⟩ := sleepBefore_retryRun attempts.toNat 0 (j + 1) none d h
    have hmj : m = j := by omega
    rw [hmj] at hd
    exact hd
  · intro h h' hjk
    have h1 : d = goInterval * 2 ^ j := by
      simpa using sleepDurations_retryRun attempts.toNat 0 j none d h
    have h2 : e = goInterval * 2 ^ k := by
      simpa using sleepDurations_retryRun attempts.toNat 0 k none e h'
    rw [h1, h2]
    have hpow : (2 : Nat) ^ j < 2 ^ k := Nat.pow_lt_pow_right (by norm_num) hjk
    have hpos : 0 < goInterval := by decide
    exact mul_lt_mul_of_pos_left hpow hpos

/-- Witness for C5 amended on the always-`ErrBadStatus` run with three
attempts: the first two delays are 500ms and 1000ms and they increase. -/
theorem c5_amended_backoff_schedule_witness :
    (sleepDurations (withRetriesRun alwaysBadStatus shouldRetryDo 3).events).get? 0
        = some 500000000 ∧
      (sleepDurations (withRetriesRun alwaysBadStatus shouldRetryDo 3).events).get? 1
        = some 1000000000 ∧
      (0 : Nat) < 1 ∧ (500000000 : Nat) < 1000000000 :=
  ⟨by decide, by decide, by decide,
    (c5_amended_backoff_schedule alwaysBadStatus shouldRetryDo 3 0 1
      500000000 1000000000).2.2 (by decide) (by decide) (by decide)⟩

/-!  Facts about `do` runs, shared by the request-level claims. -/

/-- A `do` run makes between 1 and 10 attempts, and it makes a second
attempt only when the first attempt's outcome was retryable
(`ErrBadStatus` or a network timeout). -/
theorem clientDoRun_attempt_bounds {α : Type} (decode : Payload → Except String α)
    (server : Server) (req : Request) :
    1 ≤ numAttempts (clientDoRun decode server req) ∧
      numAttempts (clientDoRun decode server req) ≤ 10 ∧
      (1 < numAttempts (clientDoRun decode server req) →
        shouldRetryDo (doAttempt decode server req 0).1 = true) := by
  refine ⟨?_, ?_, ?_⟩
  · exact numAttempts_pos (doAttempt decode server req)
      (fun r => shouldRetryDo r.1) goInterval 9 0 (none, none)
  · exact numAttempts_le (doAttempt decode server req)
      (fun r => shouldRetryDo r.1) goInterval 10 0 (none, none)
  · intro h1
    by_contra hc
    have hfalse : (fun r => shouldRetryDo r.1) (doAttempt decode server req 0) = false := by
      cases hb : shouldRetryDo (doAttempt decode server req 0).1 with
      | false => exact hb
      | true => exact absurd hb hc
    have h0 : 0 < numAttempts (clientDoRun decode server req) := by omega
    have hterm := retryRun_terminal_at (Int.toNat 10) 0 0
      ((none, none) : Option GoError × Option α) h0 (by simpa using hfalse)
    have heq : numAttempts (clientDoRun decode server req)
        = numAttempts (retryRun (doAttempt decode server req)
            (fun r => shouldRetryDo r.1) goInterval (none, none) (Int.toNat 10) 0) := rfl
    omega

/-- When the first attempt's outcome is terminal for the `do` predicate,
`do` returns that outcome after one network attempt. -/
theorem clientDo_first_terminal {α : Type} (decode : Payload → Except String α)
    (server : Server) (req : Request)
    (h : shouldRetryDo (doAttempt decode server req 0).1 = false) :
    clientDo decode server req = doAttempt decode server req 0 ∧
      numAttempts (clientDoRun decode server req) = 1 := by
  have hstop := @retryRun_stop (Option GoError × Option α)
    (doAttempt decode server req) (fun r => shouldRetryDo r.1) goInterval
    (none, none) 9 0 h
  constructor
  · show (clientDoRun decode server req).result = _
    unfold clientDoRun
    rw [show Int.toNat 10 = 9 + 1 from rfl, hstop]
  · unfold numAttempts clientDoRun
    rw [show Int.toNat 10 = 9 + 1 from rfl, hstop]
    rfl

/-!  Claim C1. -/

/-- C1 counterexample: `CreateRun` carries a body, yet against a server
that answers every attempt with HTTP 500 it performs 10 network attempts,
not at most one. -/
theorem c1_counterexample :
    numAttempts (createRunTrace always500 "ws-1") = 10 ∧
      ¬ numAttempts (createRunTrace always500 "ws-1") ≤ 1 := by
  decide

/-- C1 amended: the body-carrying mutations go through the same
`withRetries` loop as every request: between 1 and 10 network attempts,
with a second attempt only when the previous outcome was `ErrBadStatus`
(an unexpected status) or a network timeout; responses that classify as
2xx-decoded, 401, 404, decode failure, or a non-timeout transport error
end the run at that attempt. -/
theorem c1_amended_mutations_retry (server : Server)
    (workspaceID organization sshKeyID : String)
    (wopts : CreateWorkspaceOptions) (vopts : CreateVariableOptions) :
    (1 ≤ numAttempts (createRunTrace server workspaceID) ∧
      numAttempts (createRunTrace server workspaceID) ≤ 10 ∧
      (1 < numAttempts (createRunTrace server workspaceID) →
        shouldRetryDo (doAttempt decodeRunOne server (createRunReq workspaceID) 0).1
          = true)) ∧
    (1 ≤ numAttempts (createWorkspaceTrace server organization wopts) ∧
      numAttempts (createWorkspaceTrace server organization wopts) ≤ 10 ∧
      (1 < numAttempts (createWorkspaceTrace server organization wopts) →
        shouldRetryDo (doAttempt decodeWorkspaceOne server
          (createWorkspaceReq organization wopts) 0).1 = true)) ∧
    (1 ≤ numAttempts (createVariableTrace server workspaceID vopts) ∧
      numAttempts (createVariableTrace server workspaceID vopts) ≤ 10 ∧
      (1 < numAttempts (createVariableTrace server workspaceID vopts) →
        shouldRetryDo (doAttempt decodeVariableOne server
          (createVariableReq workspaceID vopts) 0).1 = true)) ∧
    (1 ≤ numAttempts (assignWorkspaceSSHKeyTrace server workspaceID sshKeyID) ∧
      numAttempts (assignWorkspaceSSHKeyTrace server workspaceID sshKeyID) ≤ 10 ∧
      (1 < numAttempts (assignWorkspaceSSHKeyTrace server workspaceID sshKeyID) →
        shouldRetryDo (doAttempt decodeWorkspaceOne server
          (assignSSHKeyReq workspaceID sshKeyID) 0).1 = true)) :=
  ⟨clientDoRun_attempt_bounds decodeRunOne server (createRunReq workspaceID),
    clientDoRun_attempt_bounds decodeWorkspaceOne server
      (createWorkspaceReq organization wopts),
    clientDoRun_attempt_bounds decodeVariableOne server
      (createVariableReq workspaceID vopts),
    clientDoRun_attempt_bounds decodeWorkspaceOne server
      (assignSSHKeyReq workspaceID sshKeyID)⟩

/-- Witness for C1 amended: against the always-500 server, `CreateRun`
retries — more than one attempt — and the first attempt's outcome was
indeed retryable. -/
theorem c1_amended_mutations_retry_witness :
    1 < numAttempts (createRunTrace always500 "ws-1") ∧
      shouldRetryDo (doAttempt decodeRunOne always500 (createRunReq "ws-1") 0).1
        = true :=
  ⟨by decide,
    (c1_amended_mutations_retry always500 "ws-1" "segment" "sshkey-1"
      default default).1.2.2 (by decide)⟩

/-!  Claim C4. -/

/-- The wrapped client of the part_002 transport answering every attempt
with a 401 response and no error. -/
def always401Wrapped : Nat → Part002.DoResult := fun _ => (some ⟨401⟩, none)

/-- C4 counterexample: the predicate the part_002 revision installs by
default (`defaultShouldRetry`, used by `New`'s `retryHTTPClient` when no
predicate is configured) retries a 401 response, so with `MaxAttempts = 2`
the attempt that receives status 401 is not the final attempt: two
attempts are performed. -/
theorem c4_counterexample :
    Part002.defaultShouldRetry (some ⟨401⟩) none = .ok true ∧
      Part002.retryHTTPClientDo ⟨goInterval, 2, none⟩ always401Wrapped false
        = .ok ((some ⟨401⟩, none), 2) ∧
      (2 : Nat) ≠ 1 := by
  refine ⟨rfl, rfl, by decide⟩

/-- What one `c.client.Get` of the hosted state URL produced on attempt
`i` inside `downloadStateVersion`: a transport error (`resp == nil`) or a
response with a status code and raw body bytes. -/
inductive DownloadReply where
  | netErr (e : GoError)
  | resp (status : Nat) (body : String)
  deriving DecidableEq, Repr

/-- One attempt of the closure `downloadStateVersion` hands to
`withRetries` (`client.go:424-435`): a transport error is returned as is,
and any non-200 status — 401 included — becomes `ErrBadStatus`. -/
def downloadAttempt (download : Nat → DownloadReply) (i : Nat) : Option GoError :=
  match download i with
  | .netErr e => some e
  | .resp status _ => if status ≠ 200 then some .badStatus else none

/-- The `withRetries` run performed by `downloadStateVersion`
(`client.go:423-447`): the same predicate as `do`'s and 10 attempts.  The
`ioutil.ReadAll` of the settled response happens after the retry loop and
is not inspected by any claim. -/
def downloadStateVersionRun (download : Nat → DownloadReply) :
    RetryRun (Option GoError) :=
  retryRun (downloadAttempt download) shouldRetryDo goInterval none (Int.toNat 10) 0

/-- A hosted-state download endpoint that answers every attempt with 401. -/
def always401Download : Nat → DownloadReply := fun _ => .resp 401 "denied"

/-- C4 amended: for every request that goes through `do`, an attempt that
receives HTTP 401 is the final attempt and `do` returns `ErrUnauthorized`.
This does not extend to the client's other retry installations: inside
`downloadStateVersion`'s closure a 401 response is classified as
`ErrBadStatus` — not Unauthorized — which the predicate retries, so an
always-401 download performs all 10 attempts and surfaces `ErrBadStatus`
(and the part_002 `defaultShouldRetry` likewise retries any non-200
status, 401 included). -/
theorem c4_amended_401_terminal {α : Type} (decode : Payload → Except String α)
    (server : Server) (req : Request) (k : Nat) (body : Payload)
    (download : Nat → DownloadReply) (i : Nat) (dbody : String) :
    (k < numAttempts (clientDoRun decode server req) →
      server req k = .resp 401 body →
      numAttempts (clientDoRun decode server req) = k + 1 ∧
        (clientDo decode server req).1 = some .unauthorized) ∧
    (download i = .resp 401 dbody →
      downloadAttempt download i = some .badStatus ∧
        shouldRetryDo (downloadAttempt download i) = true) ∧
    ((∀ j, ∃ b, download j = .resp 401 b) →
      (downloadStateVersionRun download).result = some .badStatus ∧
        numAttempts (downloadStateVersionRun download) = 10) := by
  refine ⟨?_, ?_, ?_⟩
  · intro hk h401
    have hatt : doAttempt decode server req k = (some .unauthorized, none) := by
      simp [doAttempt, h401, classifyStatus]
    have hterm : (fun r => shouldRetryDo r.1) (doAttempt decode server req k)
        = false := by
      rw [hatt]; rfl
    have hres := retryRun_terminal_at (Int.toNat 10) 0 k
      ((none, none) : Option GoError × Option α) hk (by simpa using hterm)
    refine ⟨hres.1, ?_⟩
    show (clientDoRun decode server req).result.1 = some .unauthorized
    have : (clientDoRun decode server req).result = doAttempt decode server req k := by
      simpa using hres.2
    rw [this, hatt]
  · intro h401
    have hatt : downloadAttempt download i = some .badStatus := by
      simp [downloadAttempt, h401]
    exact ⟨hatt, by rw [hatt]; rfl⟩
  · intro hall
    have hbad : ∀ j, downloadAttempt download j = some .badStatus := by
      intro j
      obtain ⟨b, hb⟩ := hall j
      simp [downloadAttempt, hb]
    have hretry : ∀ j, shouldRetryDo (downloadAttempt download j) = true := by
      intro j
      rw [hbad j]; rfl
    constructor
    · show (retryRun (downloadAttempt download) shouldRetryDo goInterval none
          (9 + 1) 0).result = some .badStatus
      rw [retryRun_result_allRetry hretry 9 0 none, hbad]
    · exact numAttempts_allRetry hretry (Int.toNat 10) 0 none

/-- Witness for C4 amended: against the always-401 server the first `do`
attempt settles the run with `ErrUnauthorized`, while the always-401
hosted-state download retries through all 10 attempts and ends with
`ErrBadStatus`. -/
theorem c4_amended_401_terminal_witness :
    0 < numAttempts (clientDoRun decodeWorkspaceOne always401 (getReq "/x" [])) ∧
      always401 (getReq "/x" []) 0 = .resp 401 (.malformed "unauthorized") ∧
      (∀ j, ∃ b, always401Download j = .resp 401 b) ∧
      ((numAttempts (clientDoRun decodeWorkspaceOne always401 (getReq "/x" []))
            = 0 + 1 ∧
          (clientDo decodeWorkspaceOne always401 (getReq "/x" [])).1
            = some .unauthorized) ∧
        ((downloadStateVersionRun always401Download).result = some .badStatus ∧
          numAttempts (downloadStateVersionRun always401Download) = 10)) :=
  ⟨by decide, rfl, fun _ => ⟨"denied", rfl⟩,
    (c4_amended_401_terminal decodeWorkspaceOne always401 (getReq "/x" []) 0
        (.malformed "unauthorized") always401Download 0 "denied").1
      (by decide) rfl,
    (c4_amended_401_terminal decodeWorkspaceOne always401 (getReq "/x" []) 0
        (.malformed "unauthorized") always401Download 0 "denied").2.2
      (fun _ => ⟨"denied", rfl⟩)⟩

/-!  Claim C8. -/

/-- C8: when an attempt's response carries a success status (one the
classifier passes through to the decoder) and decoding the body fails, the
decode error is terminal: `do` returns it to the caller and that attempt
is the final one — the request is never retried after a decode failure. -/
theorem c8_decode_failure_terminal {α : Type} (decode : Payload → Except String α)
    (server : Server) (req : Request) (k status : Nat) (body : Payload) (m : String)
    (hk : k < numAttempts (clientDoRun decode server req))
    (hresp : server req k = .resp status body)
    (hsuccess : classifyStatus status = none)
    (hdecode : decode body = .error m) :
    numAttempts (clientDoRun decode server req) = k + 1 ∧
      (clientDo decode server req).1 = some (.decodeError m) := by
  have hatt : doAttempt decode server req k = (some (.decodeError m), none) := by
    simp [doAttempt, hresp, hsuccess, hdecode]
  have hterm : (fun r => shouldRetryDo r.1) (doAttempt decode server req k) = false := by
    rw [hatt]; rfl
  have hres := retryRun_terminal_at (Int.toNat 10) 0 k
    ((none, none) : Option GoError × Option α) hk (by simpa using hterm)
  refine ⟨hres.1, ?_⟩
  show (clientDoRun decode server req).result.1 = some (.decodeError m)
  have : (clientDoRun decode server req).result = doAttempt decode server req k := by
    simpa using hres.2
  rw [this, hatt]

/-- Witness for C8: a 200 response with an undecodable body settles the
run at the first attempt with the decode error. -/
theorem c8_decode_failure_terminal_witness :
    0 < numAttempts (clientDoRun decodeWorkspaceOne always200Malformed (getReq "/x" [])) ∧
      always200Malformed (getReq "/x" []) 0 = .resp 200 (.malformed "unexpected EOF") ∧
      classifyStatus 200 = none ∧
      decodeWorkspaceOne (.malformed "unexpected EOF") = .error "unexpected EOF" ∧
      (numAttempts (clientDoRun decodeWorkspaceOne always200Malformed (getReq "/x" []))
          = 0 + 1 ∧
        (clientDo decodeWorkspaceOne always200Malformed (getReq "/x" [])).1
          = some (.decodeError "unexpected EOF")) :=
  ⟨by decide, rfl, rfl, rfl,
    c8_decode_failure_terminal decodeWorkspaceOne always200Malformed (getReq "/x" [])
      0 200 (.malformed "unexpected EOF") "unexpected EOF" (by decide) rfl rfl rfl⟩

/-!  Claim C9. -/

/-- C9: a 404 received by `GetWorkspace` is remapped to the
workspace-specific not-found error, while the same 404 received by
`GetStateVersion` is remapped to the state-version-specific not-found
error. -/
theorem c9_notFound_remap (server : Server)
    (organization workspace stateVersion : String) (b1 b2 : Payload)
    (h1 : server (getReq (workspaceGetPath organization workspace) []) 0
      = .resp 404 b1)
    (h2 : server (getReq (stateVersionGetPath stateVersion) []) 0 = .resp 404 b2) :
    (getWorkspace server organization workspace).1 = .error .workspaceNotFound ∧
      (getStateVersion server organization workspace stateVersion).1
        = .error .stateVersionNotFound := by
  constructor
  · have hatt : doAttempt decodeWorkspaceOne server
        (getReq (workspaceGetPath organization workspace) []) 0
          = (some .notFound, none) := by
      simp [doAttempt, h1, classifyStatus]
    have hdo := clientDo_first_terminal decodeWorkspaceOne server
      (getReq (workspaceGetPath organization workspace) []) (by rw [hatt]; rfl)
    unfold getWorkspace
    simp [hdo.1, hatt, remapWorkspaceErr]
  · have hatt : doAttempt decodeStateVersionOne server
        (getReq (stateVersionGetPath stateVersion) []) 0
          = (some .notFound, none) := by
      simp [doAttempt, h2, classifyStatus]
    have hdo := clientDo_first_terminal decodeStateVersionOne server
      (getReq (stateVersionGetPath stateVersion) []) (by rw [hatt]; rfl)
    unfold getStateVersion
    simp [hdo.1, hatt, remapStateVersionErr]

/-- Witness for C9 against the always-404 server. -/
theorem c9_notFound_remap_witness :
    always404 (getReq (workspaceGetPath "acme" "prod") []) 0
        = .resp 404 (.malformed "not found") ∧
      always404 (getReq (stateVersionGetPath "sv-7") []) 0
        = .resp 404 (.malformed "not found") ∧
      ((getWorkspace always404 "acme" "prod").1 = .error .workspaceNotFound ∧
        (getStateVersion always404 "acme" "prod" "sv-7").1
          = .error .stateVersionNotFound) :=
  ⟨rfl, rfl,
    c9_notFound_remap always404 "acme" "prod" "sv-7"
      (.malformed "not found") (.malformed "not found") rfl rfl⟩

/-!  Claim C3. -/

/-- The `prod` workspace of the `acme` organization, ID `ws-1`. -/
def wsProd : Workspace :=
  { ID := "ws-1", type := "workspaces", attributes := default,
    relationships := [], links := [] }

/-- The current state version the server holds for `ws-1`. -/
def svLatest : StateVersion :=
  { ID := "sv-9",
    attributes :=
      { createdAt := 0, hostedStateDownloadURL := "https://archivist.example/x",
        serial := 4 },
    links := [], relationships := [] }

/-- A server knowing the workspace `acme/prod` (ID `ws-1`) and its current
state version; every other route is a 404. -/
def acmeServer : Server := fun req _ =>
  if req.path = workspaceGetPath "acme" "prod" then .resp 200 (.workspaceOne wsProd)
  else if req.path = currentStateVersionPath "ws-1" then
    .resp 200 (.stateVersionOne svLatest)
  else .resp 404 (.malformed "no route")

/-- C3 counterexample: `GetLatestStateVersion("acme", "prod")` issues a
workspace get followed by a get of `/api/v2/workspaces/ws-1/current-state-version`;
no issued request targets the state-versions list path and none carries any
query parameter (no organization/workspace filter, no page-size-1), contrary
to the claimed filtered single-result list request. -/
theorem c3_counterexample :
    getLatestStateVersion acmeServer "acme" "prod"
        = (.ok svLatest,
            [getReq (workspaceGetPath "acme" "prod") [],
             getReq (currentStateVersionPath "ws-1") []]) ∧
      ((getLatestStateVersion acmeServer "acme" "prod").2.all
        fun r => r.path != stateVersionsPath && r.query.isEmpty) = true :=
  ⟨rfl, rfl⟩

/-- C3 amended: `GetLatestStateVersion(org, workspace)` first performs
`GetWorkspace` (propagating its error unchanged, requests included), then
issues a single body-less, query-less GET of the workspace's
`current-state-version` endpoint; a 404 there yields the
state-version-not-found error, and a 200 carrying a state version returns
that state version. -/
theorem c3_amended_getLatest (server : Server) (organization workspace : String)
    (w : Workspace) (sv : StateVersion) (e : GoError) (body : Payload) :
    ((getWorkspace server organization workspace).1 = .error e →
      getLatestStateVersion server organization workspace
        = (.error e, (getWorkspace server organization workspace).2)) ∧
    ((getWorkspace server organization workspace).1 = .ok w →
      (getLatestStateVersion server organization workspace).2
        = (getWorkspace server organization workspace).2
            ++ [getReq (currentStateVersionPath w.ID) []]) ∧
    ((getWorkspace server organization workspace).1 = .ok w →
      server (getReq (currentStateVersionPath w.ID) []) 0 = .resp 404 body →
      (getLatestStateVersion server organization workspace).1
        = .error .stateVersionNotFound) ∧
    ((getWorkspace server organization workspace).1 = .ok w →
      server (getReq (currentStateVersionPath w.ID) []) 0
          = .resp 200 (.stateVersionOne sv) →
      (getLatestStateVersion server organization workspace).1 = .ok sv) := by
  rcases hgw : getWorkspace server organization workspace with ⟨res, reqs⟩
  refine ⟨?_, ?_, ?_, ?_⟩
  · intro he
    replace he : res = Except.error e := he
    subst he
    unfold getLatestStateVersion
    rw [hgw]
  · intro hok
    replace hok : res = Except.ok w := hok
    subst hok
    rcases hcd : clientDo decodeStateVersionOne server
      (getReq (currentStateVersionPath w.ID) []) with ⟨a, b⟩
    unfold getLatestStateVersion
    rw [hgw]
    simp only [hcd]
    cases a <;> simp
  · intro hok h404
    replace hok : res = Except.ok w := hok
    subst hok
    have hatt : doAttempt decodeStateVersionOne server
        (getReq (currentStateVersionPath w.ID) []) 0 = (some .notFound, none) := by
      simp [doAttempt, h404, classifyStatus]
    have hdo := clientDo_first_terminal decodeStateVersionOne server
      (getReq (currentStateVersionPath w.ID) []) (by rw [hatt]; rfl)
    unfold getLatestStateVersion
    rw [hgw]
    simp [hdo.1, hatt, remapStateVersionErr]
  · intro hok h200
    replace hok : res = Except.ok w := hok
    subst hok
    have hatt : doAttempt decodeStateVersionOne server
        (getReq (currentStateVersionPath w.ID) []) 0 = (none, some sv) := by
      simp [doAttempt, h200, classifyStatus, decodeStateVersionOne]
    have hdo := clientDo_first_terminal decodeStateVersionOne server
      (getReq (currentStateVersionPath w.ID) []) (by rw [hatt]; rfl)
    unfold getLatestStateVersion
    rw [hgw]
    simp [hdo.1, hatt]

/-- Witness for C3 amended on the `acme` server: the workspace get
succeeds with `ws-1`, the second request gets a 200 with the state
version, and `GetLatestStateVersion` returns it. -/
theorem c3_amended_getLatest_witness :
    (getWorkspace acmeServer "acme" "prod").1 = .ok wsProd ∧
      acmeServer (getReq (currentStateVersionPath wsProd.ID) []) 0
        = .resp 200 (.stateVersionOne svLatest) ∧
      (getLatestStateVersion acmeServer "acme" "prod").1 = .ok svLatest :=
  ⟨rfl, rfl,
    (c3_amended_getLatest acmeServer "acme" "prod" wsProd svLatest
      .notFound (.malformed "")).2.2.2 rfl rfl⟩

/-!  Claim C2. -/

/-- A three-page organizations listing keyed on `page[number]` (pages are
1-indexed, `total-pages = 3`; a request without the parameter gets page 1). -/
def pagedOrgServer (q1 q2 q3 : List Organization) : Server := fun req _ =>
  if req.query.contains (pageNumberParam 2) then .resp 200 (.orgsPage q2 ⟨2, 3, 3⟩)
  else if req.query.contains (pageNumberParam 3) then .resp 200 (.orgsPage q3 ⟨3, 0, 3⟩)
  else .resp 200 (.orgsPage q1 ⟨1, 2, 3⟩)

/-- A three-page workspaces listing keyed on `page[number]`. -/
def pagedWorkspaceServer (p1 p2 p3 : List Workspace) : Server := fun req _ =>
  if req.query.contains (pageNumberParam 2) then
    .resp 200 (.workspacesPage p2 ⟨2, 3, 3⟩)
  else if req.query.contains (pageNumberParam 3) then
    .resp 200 (.workspacesPage p3 ⟨3, 0, 3⟩)
  else .resp 200 (.workspacesPage p1 ⟨1, 2, 3⟩)

/-- A three-page state-versions listing keyed on `page[number]`. -/
def pagedStateVersionServer (s1 s2 s3 : List StateVersion) : Server := fun req _ =>
  if req.query.contains (pageNumberParam 2) then
    .resp 200 (.stateVersionsPage s2 ⟨2, 3, 3⟩)
  else if req.query.contains (pageNumberParam 3) then
    .resp 200 (.stateVersionsPage s3 ⟨3, 0, 3⟩)
  else .resp 200 (.stateVersionsPage s1 ⟨1, 2, 3⟩)

/-- Once the pagination envelope says `currentPage ≥ totalPages`, the
`ListWorkspaces` loop exits at once with the accumulator, whatever fuel
remains. -/
theorem listWorkspacesLoop_done (server : Server) (organization : String)
    (acc : List Workspace) (pagination : PaginationInfo)
    (h : ¬ pagination.currentPage < pagination.totalPages) (fuel : Nat) :
    listWorkspacesLoop server organization acc pagination fuel = (.ok acc, []) := by
  rw [listWorkspacesLoop.eq_def]
  simp [h]

/-- Once the pagination envelope says `currentPage ≥ totalPages`, the
`ListStateVersions` loop exits at once with the accumulator, whatever fuel
remains. -/
theorem listStateVersionsLoop_done (server : Server)
    (organization workspace : String) (acc : List StateVersion)
    (pagination : PaginationInfo)
    (h : ¬ pagination.currentPage < pagination.totalPages) (fuel : Nat) :
    listStateVersionsLoop server organization workspace acc pagination fuel
      = (.ok acc, []) := by
  rw [listStateVersionsLoop.eq_def]
  simp [h]

/-- Because `ListOrganizations` drops its follow-up query, every loop
iteration against the three-page server re-fetches page 1: the loop never
finishes, whatever the fuel, and every issued request has an empty query. -/
theorem listOrganizationsLoop_stuck (q1 q2 q3 : List Organization) :
    ∀ (fuel : Nat) (acc : List Organization),
      (listOrganizationsLoop (pagedOrgServer q1 q2 q3) acc ⟨1, 2, 3⟩ fuel).1
          = .fuelOut ∧
        ((listOrganizationsLoop (pagedOrgServer q1 q2 q3) acc ⟨1, 2, 3⟩ fuel).2.all
          fun r => r.query.isEmpty) = true := by
  intro fuel
  induction fuel with
  | zero => intro acc; exact ⟨rfl, rfl⟩
  | succ n ih =>
    intro acc
    have hstep : listOrganizationsLoop (pagedOrgServer q1 q2 q3) acc ⟨1, 2, 3⟩ (n + 1)
        = ((listOrganizationsLoop (pagedOrgServer q1 q2 q3) (acc ++ q1) ⟨1, 2, 3⟩ n).1,
            getReq organizationsPath [] ::
              (listOrganizationsLoop (pagedOrgServer q1 q2 q3)
                (acc ++ q1) ⟨1, 2, 3⟩ n).2) := rfl
    rw [hstep]
    refine ⟨(ih (acc ++ q1)).1, ?_⟩
    simpa [getReq] using (ih (acc ++ q1)).2

/-- C2: against a three-page server, `ListWorkspaces` and
`ListStateVersions` issue exactly three requests — `page[number]` absent on
the first, then 2 and 3 — and return the concatenation of the three pages
in page order; `ListOrganizations`, however, builds its `page[number]`
query but passes `nil` to `do`, so at the same failing input every
follow-up request carries no query, page 1 is re-served forever and the
loop never terminates, whatever fuel it is allowed. -/
theorem c2_pagination (p1 p2 p3 : List Workspace) (s1 s2 s3 : List StateVersion)
    (q1 q2 q3 : List Organization) (organization workspace : String)
    (extra fuel : Nat) :
    listWorkspaces (pagedWorkspaceServer p1 p2 p3) organization (extra + 2)
        = (.ok (p1 ++ p2 ++ p3),
            [getReq (workspacesPath organization) [],
             getReq (workspacesPath organization) [pageNumberParam 2],
             getReq (workspacesPath organization) [pageNumberParam 3]]) ∧
      listStateVersions (pagedStateVersionServer s1 s2 s3) organization workspace
          (extra + 2)
        = (.ok (s1 ++ s2 ++ s3),
            [getReq stateVersionsPath (svFilters organization workspace),
             getReq stateVersionsPath
               (svFilters organization workspace ++ [pageNumberParam 2]),
             getReq stateVersionsPath
               (svFilters organization workspace ++ [pageNumberParam 3])]) ∧
      ((listOrganizations (pagedOrgServer q1 q2 q3) fuel).1 = .fuelOut ∧
        ((listOrganizations (pagedOrgServer q1 q2 q3) fuel).2.all
          fun r => r.query.isEmpty) = true) := by
  refine ⟨?_, ?_, ?_⟩
  · have hsteps : listWorkspaces (pagedWorkspaceServer p1 p2 p3) organization (extra + 2)
        = ((listWorkspacesLoop (pagedWorkspaceServer p1 p2 p3) organization
              (p1 ++ p2 ++ p3) ⟨3, 0, 3⟩ extra).1,
            getReq (workspacesPath organization) [] ::
              getReq (workspacesPath organization) [pageNumberParam 2] ::
                getReq (workspacesPath organization) [pageNumberParam 3] ::
                  (listWorkspacesLoop (pagedWorkspaceServer p1 p2 p3) organization
                    (p1 ++ p2 ++ p3) ⟨3, 0, 3⟩ extra).2) := rfl
    rw [hsteps,
      listWorkspacesLoop_done (pagedWorkspaceServer p1 p2 p3) organization
        (p1 ++ p2 ++ p3) ⟨3, 0, 3⟩ (by decide) extra]
  · have hsteps : listStateVersions (pagedStateVersionServer s1 s2 s3)
          organization workspace (extra + 2)
        = ((listStateVersionsLoop (pagedStateVersionServer s1 s2 s3)
              organization workspace (s1 ++ s2 ++ s3) ⟨3, 0, 3⟩ extra).1,
            getReq stateVersionsPath (svFilters organization workspace) ::
              getReq stateVersionsPath
                  (svFilters organization workspace ++ [pageNumberParam 2]) ::
                getReq stateVersionsPath
                    (svFilters organization workspace ++ [pageNumberParam 3]) ::
                  (listStateVersionsLoop (pagedStateVersionServer s1 s2 s3)
                    organization workspace (s1 ++ s2 ++ s3) ⟨3, 0, 3⟩ extra).2) := rfl
    rw [hsteps,
      listStateVersionsLoop_done (pagedStateVersionServer s1 s2 s3)
        organization workspace (s1 ++ s2 ++ s3) ⟨3, 0, 3⟩ (by decide) extra]
  · have hfirst : listOrganizations (pagedOrgServer q1 q2 q3) fuel
        = ((listOrganizationsLoop (pagedOrgServer q1 q2 q3) q1 ⟨1, 2, 3⟩ fuel).1,
            getReq organizationsPath [] ::
              (listOrganizationsLoop (pagedOrgServer q1 q2 q3) q1 ⟨1, 2, 3⟩ fuel).2) :=
      rfl
    rw [hfirst]
    refine ⟨(listOrganizationsLoop_stuck q1 q2 q3 fuel q1).1, ?_⟩
    simpa [getReq] using (listOrganizationsLoop_stuck q1 q2 q3 fuel q1).2

end TFE

namespace Part002

/-- One unfolding step of the retry loop. -/
theorem retryDoLoop_succ (wrapped : Nat → DoResult)
    (p : Option GoHTTPResponse → Option TFE.GoError → Panicky Bool)
    (n i : Nat) (last : DoResult) :
    retryDoLoop wrapped p (n + 1) i last
      = match p (wrapped i).1 (wrapped i).2 with
        | .panicked m => .panicked m
        | .ok true => retryDoLoop wrapped p n (i + 1) (wrapped i)
        | .ok false => .ok (wrapped i, i + 1) := rfl

/-- When the predicate returns (never panics) on every input, the retry
loop returns. -/
theorem retryDoLoop_total (wrapped : Nat → DoResult)
    (p : Option GoHTTPResponse → Option TFE.GoError → Panicky Bool)
    (hp : ∀ r e, ∃ b, p r e = .ok b) :
    ∀ (fuel i : Nat) (last : DoResult),
      ∃ v, retryDoLoop wrapped p fuel i last = .ok v := by
  intro fuel
  induction fuel with
  | zero => intro i last; exact ⟨(last, i), rfl⟩
  | succ n ih =>
    intro i last
    obtain ⟨b, hb⟩ := hp (wrapped i).1 (wrapped i).2
    cases b with
    | true =>
      obtain ⟨v, hv⟩ := ih (i + 1) (wrapped i)
      refine ⟨v, ?_⟩
      rw [retryDoLoop_succ, hb]
      exact hv
    | false =>
      refine ⟨(wrapped i, i + 1), ?_⟩
      rw [retryDoLoop_succ, hb]

/-- A wrapped client that always returns a 200 response and no error. -/
def ok200Wrapped : Nat → DoResult := fun _ => (some ⟨200⟩, none)

/-- C6 counterexample: the retrying transport can crash — a request with a
non-nil body makes `retryHTTPClient.Do` panic outright instead of
returning a value or an error. -/
theorem c6_counterexample :
    retryHTTPClientDo ⟨TFE.goInterval, 10, none⟩ ok200Wrapped true
      = .panicked "Retries for requests with Body unsupported" := rfl

/-- C6 amended: `retryHTTPClient.Do` panics on a request with a non-nil
body, and its default predicate dereferences a nil response; but for a
body-less request whose installed predicate returns on every input, `Do`
returns a value or an error, and `defaultShouldRetry` itself returns
whenever the wrapped client produced a (non-nil) response. -/
theorem c6_amended_no_panic (c : RetryHTTPClient) (wrapped : Nat → DoResult)
    (hp : ∀ r e, ∃ b, (c.shouldRetry.getD defaultShouldRetry) r e = .ok b) :
    (∃ v, retryHTTPClientDo c wrapped false = .ok v) ∧
      (∀ (r : GoHTTPResponse) (e : Option TFE.GoError),
        ∃ b, defaultShouldRetry (some r) e = .ok b) := by
  constructor
  · exact retryDoLoop_total wrapped (c.shouldRetry.getD defaultShouldRetry) hp
      c.maxAttempts.toNat 0 (none, none)
  · intro r e
    by_cases h : r.status = 200
    · have hn : ¬ r.status ≠ 200 := fun hne => hne h
      cases e with
      | none =>
        refine ⟨false, ?_⟩
        simp only [defaultShouldRetry]
        rw [if_neg hn]
      | some ge =>
        cases ge <;>
          exact ⟨_, by simp only [defaultShouldRetry]; rw [if_neg hn]⟩
    · refine ⟨true, ?_⟩
      simp only [defaultShouldRetry]
      rw [if_pos h]

/-- Witness for C6 amended: a constant non-panicking predicate on a
body-less request settles without a panic. -/
theorem c6_amended_no_panic_witness :
    (∀ (r : Option GoHTTPResponse) (e : Option TFE.GoError),
        (((some fun _ _ => Panicky.ok false) :
            Option (Option GoHTTPResponse → Option TFE.GoError → Panicky Bool)).getD
          defaultShouldRetry) r e = Panicky.ok false) ∧
      ∃ v, retryHTTPClientDo ⟨TFE.goInterval, 3, some fun _ _ => .ok false⟩
          ok200Wrapped false = .ok v :=
  ⟨fun _ _ => rfl,
    (c6_amended_no_panic ⟨TFE.goInterval, 3, some fun _ _ => .ok false⟩ ok200Wrapped
      (fun _ _ => ⟨false, rfl⟩)).1⟩

end Part002
